import Mathlib

/-!
Verification development for the research-pulse digest pipeline.

The definitions below are a shallow embedding of the Python sources:
  - ainewsfeed/filter.py            (extract_project_url, filter_papers)
  - ainewsfeed/filter_and_enrich.py (filter_and_enrich_papers_with_gemini)
  - ainewsfeed/assets.py            (download_pdf, generate_pdf_preview, extract_figures)
  - generate_feed.py                (cache branch, per-record asset loop, cache save)

Strings are modelled as Lean `String` and ASCII character lists; remote calls
and the filesystem are modelled as explicit parameters (an `Except`-valued
collaborator response, a boolean download/render outcome, a path-indexed
store).  Exceptions raised and caught inside a Python `try` block are folded
into the corresponding error value of that parameter.
-/

namespace ResearchPulse

/-- One candidate paper record, mirroring the Python dict.  Base fields are
the ones produced by the feed; the `Option` fields are the enrichment keys
the pipeline adds in place (absent = key not set, mirroring a missing dict
key, or set to Python `None` for `projectUrl`). -/
structure Paper where
  id : String
  title : String
  abstract : String
  comment : String
  url : String
  pdfUrl : Option String := none
  authors : List String := []
  aiSummary : Option String := none
  starRating : Option String := none
  projectUrl : Option String := none
  authorsFull : Option String := none
  localPdf : Option String := none
  pdfPreview : Option String := none
  deriving DecidableEq, Repr

/-- One element of the ranking collaborator JSON array in
filter_and_enrich.py: a dict that must carry an `id` key; `summary` and
`star_rating` are read with `.get` and so may be absent. -/
structure RItem where
  id : String
  summary : Option String := none
  starRating : Option String := none
  deriving DecidableEq, Repr

/-! ## Link Extractor (extract_project_url, filter.py lines 6-45)

The Python function runs
`re.findall(r'https?://(?:[-\w.]|(?:%[\da-fA-F]{2}))+[/\w\.-]*', text)`
and then walks the matches applying the exclusion and rewrite rules.
The scanner below reproduces the findall semantics for ASCII text:
left-to-right, non-overlapping, greedy matches.  Note that the character
classes admit neither `?` nor `=` nor `&`, so a match always stops at the
start of a query string. -/

/-- The `\w` class restricted to ASCII, as all modelled inputs are ASCII. -/
def isWordCh (c : Char) : Bool :=
  c.isAlpha || c.isDigit || c = '_'

/-- Hexadecimal digit, the `[\da-fA-F]` class. -/
def isHexCh (c : Char) : Bool :=
  c.isDigit || ('a' ≤ c && c ≤ 'f') || ('A' ≤ c && c ≤ 'F')

/-- Character class `[-\w.]` of the first URL group. -/
def isHostCh (c : Char) : Bool :=
  isWordCh c || c = '-' || c = '.'

/-- Character class `[/\w\.-]` of the second URL group. -/
def isPathCh (c : Char) : Bool :=
  isWordCh c || c = '/' || c = '.' || c = '-'

/-- Greedy consumption of `(?:[-\w.]|(?:%[\da-fA-F]{2}))+` tokens: plain
host characters, or a percent escape followed by two hex digits.  Returns
the consumed characters and the remaining input. -/
def takeHostPart : List Char → List Char × List Char
  | [] => ([], [])
  | c :: cs =>
    if isHostCh c then
      let (t, r) := takeHostPart cs
      (c :: t, r)
    else if c = '%' then
      match cs with
      | a :: b :: cs2 =>
        if isHexCh a && isHexCh b then
          let (t, r) := takeHostPart cs2
          ('%' :: a :: b :: t, r)
        else ([], c :: cs)
      | _ => ([], c :: cs)
    else ([], c :: cs)

/-- Matches the literal scheme `https?://` at the head of the input,
returning the consumed characters and the rest. -/
def matchScheme : List Char → Option (List Char × List Char)
  | 'h' :: 't' :: 't' :: 'p' :: 's' :: ':' :: '/' :: '/' :: r =>
      some (['h', 't', 't', 'p', 's', ':', '/', '/'], r)
  | 'h' :: 't' :: 't' :: 'p' :: ':' :: '/' :: '/' :: r =>
      some (['h', 't', 't', 'p', ':', '/', '/'], r)
  | _ => none

/-- Attempts the whole URL pattern anchored at the head of the input.
Returns the matched URL and the remaining input after it. -/
def matchUrlAt (l : List Char) : Option (List Char × List Char) :=
  match matchScheme l with
  | none => none
  | some (sch, r) =>
    let (g1, r1) := takeHostPart r
    if g1.isEmpty then none
    else some (sch ++ g1 ++ r1.takeWhile isPathCh, r1.dropWhile isPathCh)

/-- Fuel-driven findall loop: try a match at each position, skip one
character on failure, continue after the match on success. -/
def findUrlsAux : Nat → List Char → List (List Char)
  | 0, _ => []
  | _ + 1, [] => []
  | fuel + 1, c :: cs =>
    match matchUrlAt (c :: cs) with
    | some (u, rest) => u :: findUrlsAux fuel rest
    | none => findUrlsAux fuel cs

/-- All regex matches in the text, in first-occurrence order.  A fuel of
the text length suffices: every step consumes at least one character while
spending exactly one unit of fuel. -/
def findUrls (l : List Char) : List (List Char) :=
  findUrlsAux l.length l

/-- Substring test, the Python `in` operator on strings. -/
def isSubL (needle : List Char) : List Char → Bool
  | [] => needle.isEmpty
  | c :: cs => needle.isPrefixOf (c :: cs) || isSubL needle cs

/-- ASCII lowercasing of a character list, the Python `.lower()`. -/
def lowerL (l : List Char) : List Char :=
  l.map Char.toLower

/-- The ordered academic/metadata exclusion tokens of filter.py line 27. -/
def academicTokens : List (List Char) :=
  ["arxiv.org", "doi.org", "creativecommons.org", "license", "overleaf.com"].map String.data

/-- First exclusion: any academic/metadata token occurs in the lowercased URL. -/
def academicExcluded (url : List Char) : Bool :=
  academicTokens.any (fun t => isSubL t (lowerL url))

/-- Second exclusion: a raw code-repository page (github.com) in the
lowercased URL; `*.github.io` pages do not contain this token and survive. -/
def githubExcluded (url : List Char) : Bool :=
  isSubL "github.com".data (lowerL url)

/-- A URL is skipped by the loop when either exclusion fires. -/
def urlExcluded (url : List Char) : Bool :=
  academicExcluded url || githubExcluded url

/-- Suffix of the input after the first occurrence of the separator, or
`none` when the separator does not occur. -/
def dropThroughFirst (sep : List Char) : List Char → Option (List Char)
  | [] => if sep.isEmpty then some [] else none
  | c :: cs =>
    if sep.isPrefixOf (c :: cs) then some ((c :: cs).drop sep.length)
    else dropThroughFirst sep cs

/-- Fuel-driven suffix after the last occurrence of the separator, the
Python `s.split(sep)[-1]` for a non-empty separator. -/
def lastSegmentAux (sep : List Char) : Nat → List Char → List Char
  | 0, l => l
  | fuel + 1, l =>
    match dropThroughFirst sep l with
    | some r => lastSegmentAux sep fuel r
    | none => l

/-- Python `s.split(sep)[-1]`: the text after the last separator occurrence
(the whole text when the separator is absent). -/
def lastSegment (sep l : List Char) : List Char :=
  lastSegmentAux sep l.length l

/-- Python `s.split(sep)[0]`: the text before the first separator occurrence
(the whole text when the separator is absent). -/
def firstSegment (sep : List Char) : List Char → List Char
  | [] => []
  | c :: cs =>
    if sep.isPrefixOf (c :: cs) then []
    else c :: firstSegment sep cs

/-- The embeddable-player URL stem of filter.py lines 38 and 41. -/
def embedStem : List Char :=
  "https://www.youtube.com/embed/".data

/-- The video rewrite step of filter.py lines 36-43, applied to a URL that
survived exclusion.  Watch pages use `url.split("v=")[-1].split("&")[0]`,
short links use `url.split("/")[-1]`; both checks are on the original,
non-lowercased URL. -/
def rewriteVideo (url : List Char) : List Char :=
  if isSubL "youtube.com/watch".data url then
    embedStem ++ firstSegment ['&'] (lastSegment ['v', '='] url)
  else if isSubL "youtu.be".data url then
    embedStem ++ lastSegment ['/'] url
  else url

/-- The for-loop of filter.py lines 23-43: skip excluded URLs, return the
first survivor after the video rewrite. -/
def selectUrl : List (List Char) → Option (List Char)
  | [] => none
  | u :: us => if urlExcluded u then selectUrl us else some (rewriteVideo u)

/-- extract_project_url (filter.py lines 6-45): empty text yields `none`,
otherwise the first regex match surviving the exclusion list, rewritten. -/
def extract_project_url (text : List Char) : Option (List Char) :=
  if text.isEmpty then none
  else selectUrl (findUrls text)

/-! ## Stable sort

Python `list.sort(key=k)` is an ascending stable sort.  The insertion sort
below with comparator `fun a b => decide (k a ≤ k b)` computes exactly that:
an element is inserted before the first element it compares
less-or-equal to, and the recursion inserts earlier input elements into the
sorted tail, so equal keys keep their input order. -/

/-- Inserts an element before the first member of the (sorted) list that
the comparator accepts. -/
def orderedInsertB (r : α → α → Bool) (a : α) : List α → List α
  | [] => [a]
  | b :: l => if r a b then a :: b :: l else b :: orderedInsertB r a l

/-- Stable insertion sort with a boolean comparator. -/
def insertionSortB (r : α → α → Bool) : List α → List α
  | [] => []
  | a :: l => orderedInsertB r a (insertionSortB r l)

/-! ## Candidate Selector, single-pass form
(filter_and_enrich_papers_with_gemini, filter_and_enrich.py lines 61-158) -/

/-- Last enumerated entry of the collaborator response whose `id` matches,
together with its position.  This is the joint embedding of the two Python
dict comprehensions `enrichment_map = {item['id']: item ...}` and
`sort_order = {item['id']: index ...}`: dict construction lets the last
occurrence of a duplicate key win. -/
def lookupLast (results : List RItem) (pid : String) : Option (Nat × RItem) :=
  results.enum.reverse.find? (fun e => e.2.id == pid)

/-- Rank position of a paper id in the collaborator response, if present. -/
def rankOf (results : List RItem) (pid : String) : Option Nat :=
  (lookupLast results pid).map (·.1)

/-- Field attachment of filter_and_enrich.py lines 127-138: set the summary
and star rating (with the literal defaults of the source) and compute the
project URL over abstract-then-comment. -/
def enrichPaper (p : Paper) (it : RItem) : Paper :=
  let url :=
    match extract_project_url p.abstract.data with
    | some u => some u
    | none => extract_project_url p.comment.data
  { p with
    aiSummary := some (it.summary.getD "No summary available.")
    starRating := some (it.starRating.getD "☆☆☆☆☆")
    projectUrl := url.map (fun l => String.mk l) }

/-- Sort key of filter_and_enrich.py line 145:
`sort_order.get(x['id'], 999)`. -/
def feSortKey (results : List RItem) (p : Paper) : Nat :=
  (rankOf results p.id).getD 999

/-- The reconciliation loop, sort and truncation of filter_and_enrich.py
lines 124-148 applied to a successfully parsed response. -/
def feSelect (papers : List Paper) (results : List RItem) (limit : Nat) : List Paper :=
  let finalPapers := papers.filterMap (fun p =>
    match lookupLast results p.id with
    | some e => some (enrichPaper p e.2)
    | none => none)
  (insertionSortB (fun a b => decide (feSortKey results a ≤ feSortKey results b))
      finalPapers).take limit

/-- Per-paper line of the `papers_text` prompt block. -/
def fePaperLine (p : Paper) : String :=
  "ID: " ++ p.id ++ "\nTitle: " ++ p.title ++ "\nAbstract: " ++ p.abstract

/-- The batched prompt of filter_and_enrich.py lines 77-105.  The literal
instruction text is abbreviated to its skeleton; no claim inspects the
prompt of this function, only its structure as a single batched request
over all candidates matters here. -/
def fePrompt (papers : List Paper) (interests : String) (limit : Nat) : String :=
  "You are an expert research assistant.\nUser Interests: " ++ interests ++
    "\nTask: select the top " ++ toString limit ++
    " matches, sort by relevance, rate and summarize.\nPapers to analyze:\n" ++
    String.intercalate "\n\n" (papers.map fePaperLine)

/-- Result dictionary of both selector functions, extended with a flag
recording whether the ranking collaborator was invoked. -/
structure SelectResult where
  papers : List Paper
  prompt : String
  invoked : Bool
  deriving DecidableEq, Repr

/-- filter_and_enrich_papers_with_gemini.  The collaborator call, JSON
parsing and any exception inside the `try` block are folded into the
`response` parameter: `Except.error` selects the fallback branch of lines
152-158, which returns the first `limit` papers untouched. -/
def filterAndEnrichRun (papers : List Paper) (interests : String)
    (response : Except Unit (List RItem)) (limit : Nat) : SelectResult :=
  match response with
  | .error _ => ⟨papers.take limit, fePrompt papers interests limit, true⟩
  | .ok results => ⟨feSelect papers results limit, fePrompt papers interests limit, true⟩

/-! ## Candidate Selector, two-pass form (filter_papers, filter.py lines 59-112) -/

/-- Per-paper line of the filter prompt, filter.py line 70. -/
def fpPaperLine (p : Paper) : String :=
  "ID: " ++ p.id ++ " | Title: " ++ p.title

/-- The prompt of filter.py lines 72-82, likewise abbreviated to its
skeleton around the interpolated parts. -/
def fpPrompt (papers : List Paper) (interests : String) (limit : Nat) : String :=
  "You are a research assistant.\nUser Interests: " ++ interests ++
    "\nTask: Select the Top " ++ toString limit ++
    " papers from the list below.\nPapers:\n" ++
    String.intercalate "\n" (papers.map fpPaperLine)

/-- filter_papers.  The response of this call site is a JSON array of id
strings.  The empty-input guard of lines 64-65 returns before the client is
created, hence `invoked := false` there; the fallback branch of lines
106-112 returns the first 5 papers regardless of `limit`. -/
def filterPapersRun (papers : List Paper) (interests : String)
    (response : Except Unit (List String)) (limit : Nat) : SelectResult :=
  if papers.isEmpty then ⟨[], "", false⟩
  else
    match response with
    | .error _ => ⟨papers.take 5, fpPrompt papers interests limit, true⟩
    | .ok ids =>
      ⟨(papers.filter (fun p => ids.contains p.id)).take limit,
        fpPrompt papers interests limit, true⟩

/-! ## Spec-mirror of the Candidate Selector reconciliation -/

/-- Rank-order comparator written from the specification words: survivors
are ordered by the rank the collaborator returned; a survivor without a
rank sorts after every ranked one, and ties keep the input order through
sort stability. -/
def specRankLe (results : List RItem) (a b : Paper) : Bool :=
  match rankOf results a.id, rankOf results b.id with
  | some ra, some rb => decide (ra ≤ rb)
  | some _, none => true
  | none, some _ => false
  | none, none => true

/-- Modelled from the spec sentences for C1: the final list contains
exactly those original candidates whose identifier appears in the returned
list (each carrying its attached payload), sorted by the returned rank
order with unranked survivors after all ranked ones in input order, and is
truncated to `limit` after sorting. -/
def selectorSpecResult (papers : List Paper) (results : List RItem) (limit : Nat) :
    List Paper :=
  let survivors :=
    (papers.filter (fun p => (lookupLast results p.id).isSome)).map (fun p =>
      match lookupLast results p.id with
      | some e => enrichPaper p e.2
      | none => p)
  (insertionSortB (specRankLe results) survivors).take limit

/-! ## Cache Manager (generate_feed.py, setup_directories and main)

The cache decision of main is
`if data_file.exists() and not args.force: enriched = json.load(...)`
with the producer pipeline and `json.dump(enriched, ...)` in the else
branch.  The filesystem is modelled as a map from paths to stored record
lists; JSON serialization of the stored list is modelled as the identity
on records (its byte-level form is treated separately below). -/

/-- The period key components of setup_directories: calendar year, ISO
week and the literal date string, all derived from the report date. -/
structure PeriodKey where
  year : String
  week : String
  dateStr : String
  deriving DecidableEq, Repr

/-- Cache location of setup_directories (generate_feed.py lines 44-54):
`<root>/<year>/week_<week>/assets/<prefix>_<date>/papers_data.json`. -/
def dataFileLoc (root pfx : String) (k : PeriodKey) : String :=
  root ++ "/" ++ k.year ++ "/week_" ++ k.week ++ "/assets/" ++ pfx ++ "_" ++
    k.dateStr ++ "/papers_data.json"

/-- A path-indexed store of decoded cache contents. -/
def Store := String → Option (List Paper)

/-- Outcome of one orchestrator run around the cache: the record list it
proceeds with, the store after the run, and whether the producer pipeline
was invoked. -/
structure CacheRunOutcome where
  result : List Paper
  store : Store
  producerInvoked : Bool

/-- The cache branch of generate_feed.py lines 92-98 and 188-191: on a hit
with `force` unset, return the deserialized file without running the
pipeline; otherwise run the producer and serialize its result to the same
location before proceeding. -/
def runWithCache (fs : Store) (root pfx : String) (k : PeriodKey) (force : Bool)
    (producer : List Paper) : CacheRunOutcome :=
  let loc := dataFileLoc root pfx k
  match fs loc, force with
  | some cached, false => ⟨cached, fs, false⟩
  | some _, true => ⟨producer, fun q => if q = loc then some producer else fs q, true⟩
  | none, _ => ⟨producer, fun q => if q = loc then some producer else fs q, true⟩

/-! ## Byte-level cache save (generate_feed.py lines 188-191)

`with open(data_file, "w") as f: json.dump(enriched, f, indent=2)` opens
the cache path itself with truncation and then streams the serialization
into it.  The trace below records the observable contents of the cache
path: `none` before the save, the truncated empty file once `open`
returns, the full serialization after `json.dump` finishes.  Streaming is
coarsened to a single write, which only shortens the observable window of
partial contents. -/

/-- A single JSON-ish record rendering; only its shape matters here. -/
def serializePaper (p : Paper) : String :=
  "\x7b\"id\": \"" ++ p.id ++ "\", \"title\": \"" ++ p.title ++ "\"\x7d"

/-- Serialized form of the record list: a JSON array, never empty text. -/
def serializePapers (ps : List Paper) : String :=
  "[" ++ String.intercalate ", " (ps.map serializePaper) ++ "]"

/-- File-system operations the save step performs. -/
inductive FsOp where
  | openTruncate (path : String)
  | writeAll (path : String) (content : String)
  | rename (src dst : String)
  deriving DecidableEq, Repr

/-- The save step of the source: truncate the cache path in place, then
write the serialization to it.  No temporary file and no rename occur. -/
def saveCacheOps (loc : String) (ps : List Paper) : List FsOp :=
  [FsOp.openTruncate loc, FsOp.writeAll loc (serializePapers ps)]

/-- Effect of one operation on the contents observed at a fixed path. -/
def applyFsOp (path : String) (st : Option String) : FsOp → Option String
  | FsOp.openTruncate p => if p = path then some "" else st
  | FsOp.writeAll p c => if p = path then some c else st
  | FsOp.rename s t =>
    if t = path then none else if s = path then none else st

/-- Observable contents at a path after each prefix of an operation list,
including the initial state. -/
def traceAt (path : String) (st : Option String) : List FsOp → List (Option String)
  | [] => [st]
  | op :: ops => st :: traceAt path (applyFsOp path st op) ops

/-! ## Document Asset Extractor (assets.py and the loop of generate_feed.py) -/

/-- Outcome of the remote document fetch: an exception (network error,
timeout, or a local write failure inside the same `try` block), or a
completed HTTP response with its status code and body. -/
inductive HttpOutcome where
  | exn
  | resp (status : Nat) (body : String)
  deriving DecidableEq, Repr

/-- Result of download_pdf: the returned boolean, whether a fetch was
attempted, and what was written to the target path. -/
structure DownloadResult where
  success : Bool
  fetched : Bool
  written : Option String
  deriving DecidableEq, Repr

/-- download_pdf (assets.py lines 32-46): an existing target file is
success without a fetch; an exception is caught and returns failure; any
completed response has its body written and returns success, with no
status inspection. -/
def download_pdf (fileExists : Bool) (out : HttpOutcome) : DownloadResult :=
  if fileExists then ⟨true, false, none⟩
  else
    match out with
    | HttpOutcome.exn => ⟨false, true, none⟩
    | HttpOutcome.resp _ body => ⟨true, true, some body⟩

/-- generate_pdf_preview (assets.py lines 9-30): the whole body is inside
`try`; a successful render returns the preview filename, any exception is
caught and returns Python `None`. -/
def generate_pdf_preview (paperId : String) (renderOk : Bool) : Option String :=
  if renderOk then some (paperId ++ "_preview.png") else none

/-- Environment of one iteration of the asset loop of generate_feed.py
lines 148-177: the affiliation lookup result and the nondeterministic
outcomes of the download, the render and the preview-file stat. -/
structure AssetEnv where
  affiliations : Option String
  fileExists : Bool
  http : HttpOutcome
  renderOk : Bool
  previewOnDisk : Bool
  deriving DecidableEq, Repr

/-- Remote document URL of generate_feed.py line 156:
`paper.get('pdf_url') or paper['url'].replace('/abs/', '/pdf/') + ".pdf"`. -/
def pdfRemoteUrl (p : Paper) : String :=
  p.pdfUrl.getD (p.url.replace "/abs/" "/pdf/" ++ ".pdf")

/-- One iteration of the asset loop (generate_feed.py lines 148-177).  The
body is not inside any `try`: when `generate_pdf_preview` returns `None`,
the expression `assets_dir / preview_filename` on line 174 raises
`TypeError` (pathlib refuses `None` operands), modelled as `Except.error`.
On a failed download the remote URL is substituted for the local path. -/
def processPaper (env : AssetEnv) (relAssetPath : String) (p : Paper) :
    Except String Paper :=
  let p1 := { p with
    authorsFull := some (env.affiliations.getD (String.intercalate ", " p.authors)) }
  if (download_pdf env.fileExists env.http).success then
    let p2 := { p1 with localPdf := some (relAssetPath ++ "/" ++ p1.id ++ ".pdf") }
    match generate_pdf_preview p2.id env.renderOk with
    | none =>
      Except.error "TypeError: unsupported operand type(s) for /: PosixPath and NoneType"
    | some name =>
      Except.ok (if env.previewOnDisk
        then { p2 with pdfPreview := some (relAssetPath ++ "/" ++ name) }
        else p2)
  else
    Except.ok { p1 with localPdf := some (pdfRemoteUrl p1) }

/-- The asset loop over all enriched records.  An uncaught exception in
one iteration propagates: later records are not processed. -/
def processAll (relAssetPath : String) : List (AssetEnv × Paper) →
    Except String (List Paper)
  | [] => Except.ok []
  | (env, p) :: rest =>
    match processPaper env relAssetPath p with
    | Except.error msg => Except.error msg
    | Except.ok p2 =>
      match processAll relAssetPath rest with
      | Except.error msg => Except.error msg
      | Except.ok ps => Except.ok (p2 :: ps)

/-! ## Image Quality Filter (extract_figures, assets.py lines 74-99)

The aspect checks `aspect > 5 or aspect < 0.2` on the float `w / h` are
modelled by the exact cross-multiplied comparisons `w > 5 * h` and
`5 * w < h`; at every dimension pair decided by a theorem below the float
computation gives the same verdict. -/

/-- Byte-size rejection of line 78: `len(image_bytes) < 15000`. -/
def figByteViolation (byteLen : Nat) : Bool :=
  byteLen < 15000

/-- Minimum-dimension rejection of line 84: `w < 200 or h < 200`. -/
def figMinDimViolation (w h : Nat) : Bool :=
  w < 200 || h < 200

/-- Aspect rejection of lines 86-87: `w / h > 5 or w / h < 0.2`. -/
def figAspectViolation (w h : Nat) : Bool :=
  w > 5 * h || 5 * w < h

/-- The acceptance decision for one embedded image, in the source order of
the three rejection filters. -/
def figureAccepted (byteLen w h : Nat) : Bool :=
  if figByteViolation byteLen then false
  else if figMinDimViolation w h then false
  else if figAspectViolation w h then false
  else true

/-! ## Concrete sample records used by counterexamples and witnesses -/

/-- Minimal sample paper with a given id. -/
def mkPaper (pid : String) : Paper :=
  { id := pid, title := "T" ++ pid, abstract := "", comment := "", url := "" }

def cexA : Paper := mkPaper "A"
def cexB : Paper := mkPaper "B"

/-- Six distinct sample papers. -/
def cexSix : List Paper :=
  [mkPaper "p1", mkPaper "p2", mkPaper "p3", mkPaper "p4", mkPaper "p5", mkPaper "p6"]

/-- Text with an academic-domain URL before a qualifying custom-domain URL. -/
def cexTextTwo : List Char :=
  "See https://arxiv.org/abs/1234.5678 and demo https://demo.example.com/page".data

/-- Text whose only URL is from an excluded domain. -/
def cexTextDoi : List Char :=
  "Only https://doi.org/10.1000/182 here".data

/-- Text whose first surviving URL is a watch-page video URL with a
video-id query parameter. -/
def cexTextWatch : List Char :=
  "Video: https://www.youtube.com/watch?v=dQw4w9WgXcQ".data

/-- Text whose first surviving URL is a short-link video URL with the
video id as a path segment. -/
def cexTextShort : List Char :=
  "Video: https://youtu.be/dQw4w9WgXcQ".data

/-- The empty path-indexed store: no cache file exists anywhere. -/
def emptyStore : Store := fun _ => none

/-- A sample period key. -/
def cexKey : PeriodKey := ⟨"2026", "41", "2026_10_09"⟩

/-- The cache location of the sample period key. -/
def cexLoc : String := dataFileLoc "out" "feed" cexKey

/-- Recognizer for the rename operation. -/
def isRenameOp : FsOp → Bool
  | FsOp.rename _ _ => true
  | _ => false

/-- Asset-loop environment whose download succeeds (file already present)
but whose preview render raises inside generate_pdf_preview. -/
def envRenderFail : AssetEnv :=
  ⟨none, true, HttpOutcome.exn, false, false⟩

/-- Asset-loop environment where every step succeeds. -/
def envAllOk : AssetEnv :=
  ⟨none, true, HttpOutcome.exn, true, true⟩

/-! ## Lemmas about the stable sort and the selector -/

theorem mem_orderedInsertB {r : α → α → Bool} {a x : α} {l : List α} :
    x ∈ orderedInsertB r a l ↔ x = a ∨ x ∈ l := by
  induction l with
  | nil => simp [orderedInsertB]
  | cons b t ih =>
    by_cases h : r a b
    · simp [orderedInsertB, h]
    · simp only [orderedInsertB, h, if_neg, Bool.false_eq_true, ite_false,
        List.mem_cons, ih]
      tauto

theorem mem_insertionSortB {r : α → α → Bool} {x : α} {l : List α} :
    x ∈ insertionSortB r l ↔ x ∈ l := by
  induction l with
  | nil => simp [insertionSortB]
  | cons a t ih => simp [insertionSortB, mem_orderedInsertB, ih]

theorem orderedInsertB_congr {r r' : α → α → Bool} {a : α} {l : List α}
    (h : ∀ b ∈ l, r a b = r' a b) :
    orderedInsertB r a l = orderedInsertB r' a l := by
  induction l with
  | nil => rfl
  | cons b t ih =>
    have hb : r a b = r' a b := h b (List.mem_cons_self b t)
    by_cases hc : r a b
    · simp [orderedInsertB, hc, hb ▸ hc]
    · have hc' : ¬ r' a b = true := by rw [← hb]; exact hc
      simp only [orderedInsertB, if_neg hc, if_neg hc']
      exact congrArg (b :: ·) (ih fun c hcmem => h c (List.mem_cons_of_mem b hcmem))

theorem insertionSortB_congr {r r' : α → α → Bool} {l : List α}
    (h : ∀ a ∈ l, ∀ b ∈ l, r a b = r' a b) :
    insertionSortB r l = insertionSortB r' l := by
  induction l with
  | nil => rfl
  | cons a t ih =>
    have ht : insertionSortB r t = insertionSortB r' t :=
      ih fun x hx y hy =>
        h x (List.mem_cons_of_mem a hx) y (List.mem_cons_of_mem a hy)
    show orderedInsertB r a (insertionSortB r t)
        = orderedInsertB r' a (insertionSortB r' t)
    rw [ht]
    exact orderedInsertB_congr fun b hb =>
      h a (List.mem_cons_self a t) b
        (List.mem_cons_of_mem a (mem_insertionSortB.mp hb))

theorem enrichPaper_id (p : Paper) (it : RItem) : (enrichPaper p it).id = p.id := rfl

/-- The one-pass append loop of the source equals filtering the survivors
first and attaching their payloads second. -/
theorem filterMap_lookup_eq (papers : List Paper) (results : List RItem) :
    papers.filterMap (fun p =>
        match lookupLast results p.id with
        | some e => some (enrichPaper p e.2)
        | none => none)
      = (papers.filter (fun p => (lookupLast results p.id).isSome)).map (fun p =>
          match lookupLast results p.id with
          | some e => enrichPaper p e.2
          | none => p) := by
  induction papers with
  | nil => rfl
  | cons p t ih =>
    cases h : lookupLast results p.id with
    | none => simpa [List.filterMap_cons, List.filter_cons, h] using ih
    | some e => simpa [List.filterMap_cons, List.filter_cons, h] using ih

/-- Every record the reconciliation loop keeps carries a rank in the
returned list. -/
theorem ranked_of_mem_selected {papers : List Paper} {results : List RItem} {q : Paper}
    (hq : q ∈ papers.filterMap (fun p =>
      match lookupLast results p.id with
      | some e => some (enrichPaper p e.2)
      | none => none)) :
    (rankOf results q.id).isSome := by
  rcases List.mem_filterMap.mp hq with ⟨p, _, hp⟩
  cases h : lookupLast results p.id with
  | none => rw [h] at hp; cases hp
  | some e =>
    rw [h] at hp
    cases hp
    rw [rankOf, enrichPaper_id, h]
    rfl


/-- The selection loop returns the first non-excluded URL, rewritten. -/
theorem selectUrl_eq_find (us : List (List Char)) :
    selectUrl us = (us.find? (fun u => ! urlExcluded u)).map rewriteVideo := by
  induction us with
  | nil => rfl
  | cons u t ih =>
    by_cases h : urlExcluded u
    · simp [selectUrl, h, List.find?, ih]
    · simp [selectUrl, h, List.find?]

/-- The serialized cache body is never the empty string. -/
theorem serializePapers_ne_empty (ps : List Paper) : serializePapers ps ≠ "" := by
  intro h
  have h2 := congrArg String.length h
  rw [serializePapers] at h2
  simp [String.length_append] at h2
  exact absurd h2.1.1 (by decide)

/-! ## Claim theorems -/

/-- Claim C1, counterexample.  The two-pass selector (filter_papers,
filter.py line 98) keeps survivors in original input order: with the
collaborator ranking id "B" at position 0 ahead of id "A" at position 1,
the returned list is still `[cexA, cexB]`, not the rank order
`[cexB, cexA]` the claim requires. -/
theorem C1_counterexample :
    (filterPapersRun [cexA, cexB] "i" (Except.ok ["B", "A"]) 20).papers = [cexA, cexB]
    ∧ ([cexA, cexB] : List Paper) ≠ [cexB, cexA] := by
  constructor
  · rfl
  · decide

/-- Claim C1, amended.  The single-pass selector
(filter_and_enrich_papers_with_gemini) does satisfy the claim: its result
equals the spec-described selection (survivors exactly the candidates
named by the response, sorted by returned rank order with unranked
survivors after ranked ones in input order, truncated to `limit` after
sorting).  The two-pass selector (filter_papers) instead returns the
matching candidates in original input order, truncated to `limit`. -/
theorem C1_selector_rank_order :
    (∀ (papers : List Paper) (results : List RItem) (limit : Nat),
        feSelect papers results limit = selectorSpecResult papers results limit)
    ∧ (∀ (papers : List Paper) (interests : String) (ids : List String) (limit : Nat),
        (filterPapersRun papers interests (Except.ok ids) limit).papers
          = (papers.filter (fun p => ids.contains p.id)).take limit) := by
  constructor
  · intro papers results limit
    simp only [feSelect, selectorSpecResult]
    rw [filterMap_lookup_eq]
    congr 1
    apply insertionSortB_congr
    intro a ha b hb
    rw [← filterMap_lookup_eq] at ha hb
    obtain ⟨na, hna⟩ := Option.isSome_iff_exists.mp (ranked_of_mem_selected ha)
    obtain ⟨nb, hnb⟩ := Option.isSome_iff_exists.mp (ranked_of_mem_selected hb)
    simp [specRankLe, feSortKey, hna, hnb]
  · intro papers interests ids limit
    by_cases h : papers.isEmpty
    · rw [List.isEmpty_iff] at h
      subst h
      simp [filterPapersRun]
    · simp [filterPapersRun, h]

/-- Claim C2, counterexample.  On a collaborator failure with six
candidates and `limit = 3`, filter_papers returns its hard-coded first 5
candidates (filter.py line 110), not the first `limit` candidates. -/
theorem C2_counterexample :
    (filterPapersRun cexSix "i" (Except.error ()) 3).papers ≠ cexSix.take 3 := by
  decide

/-- Claim C2, amended.  On any failure the single-pass selector falls back
to the first `limit` original candidates unchanged; the two-pass
filter_papers falls back to the first 5 original candidates regardless of
`limit`.  Neither fallback populates rationale or indicator fields: the
records are returned exactly as given. -/
theorem C2_fallback_truncation :
    ∀ (papers : List Paper) (interests : String) (limit : Nat),
    (filterAndEnrichRun papers interests (Except.error ()) limit).papers = papers.take limit
    ∧ (filterPapersRun papers interests (Except.error ()) limit).papers = papers.take 5
    ∧ ((∀ p ∈ papers, p.aiSummary = none ∧ p.starRating = none) →
        ∀ q ∈ (filterAndEnrichRun papers interests (Except.error ()) limit).papers,
          q.aiSummary = none ∧ q.starRating = none) := by
  intro papers interests limit
  refine ⟨rfl, ?_, ?_⟩
  · by_cases h : papers.isEmpty
    · rw [List.isEmpty_iff] at h
      subst h
      rfl
    · simp [filterPapersRun, h]
  · intro hall q hq
    have h1 : (filterAndEnrichRun papers interests (Except.error ()) limit).papers
        = papers.take limit := rfl
    rw [h1] at hq
    exact hall q (List.take_subset _ _ hq)

/-- Claim C2, witness for the amended theorem at six concrete candidates
and `limit = 3`. -/
theorem C2_fallback_truncation_witness :
    (filterAndEnrichRun cexSix "i" (Except.error ()) 3).papers = cexSix.take 3
    ∧ (∀ q ∈ (filterAndEnrichRun cexSix "i" (Except.error ()) 3).papers,
        q.aiSummary = none ∧ q.starRating = none) := by
  have h := C2_fallback_truncation cexSix "i" 3
  exact ⟨h.1, h.2.2 (by decide)⟩

/-- Claim C3: a persisted result at the location derived from the period
key together with `force = false` is returned deserialized without running
the producer; otherwise the producer runs and its result is serialized to
that location before the run returns.  Hence two runs with the same key
and `force = false` invoke the producer exactly once (the first run), and
two runs with `force = true` invoke it both times. -/
theorem C3_cache_idempotent :
    ∀ (fs : Store) (root pfx : String) (k : PeriodKey) (p1 p2 : List Paper),
    (∀ cached, fs (dataFileLoc root pfx k) = some cached →
        (runWithCache fs root pfx k false p1).result = cached
        ∧ (runWithCache fs root pfx k false p1).producerInvoked = false)
    ∧ (fs (dataFileLoc root pfx k) = none →
        (runWithCache fs root pfx k false p1).producerInvoked = true
        ∧ (runWithCache fs root pfx k false p1).result = p1
        ∧ (runWithCache fs root pfx k false p1).store (dataFileLoc root pfx k) = some p1)
    ∧ (fs (dataFileLoc root pfx k) = none →
        (runWithCache (runWithCache fs root pfx k false p1).store root pfx k false p2).producerInvoked
            = false
        ∧ (runWithCache (runWithCache fs root pfx k false p1).store root pfx k false p2).result
            = p1)
    ∧ ((runWithCache fs root pfx k true p1).producerInvoked = true
        ∧ (runWithCache (runWithCache fs root pfx k true p1).store root pfx k true p2).producerInvoked
            = true) := by
  intro fs root pfx k p1 p2
  refine ⟨?_, ?_, ?_, ?_⟩
  · intro cached hc
    simp [runWithCache, hc]
  · intro h
    simp [runWithCache, h]
  · intro h
    simp [runWithCache, h]
  · cases h : fs (dataFileLoc root pfx k) <;> simp [runWithCache, h]

/-- Claim C3, witness: starting from an empty store, the first run invokes
the producer and the second run replays its result without invoking it. -/
theorem C3_cache_idempotent_witness :
    (runWithCache emptyStore "out" "feed" cexKey false [cexA]).producerInvoked = true
    ∧ (runWithCache (runWithCache emptyStore "out" "feed" cexKey false [cexA]).store
        "out" "feed" cexKey false [cexB]).producerInvoked = false
    ∧ (runWithCache (runWithCache emptyStore "out" "feed" cexKey false [cexA]).store
        "out" "feed" cexKey false [cexB]).result = [cexA] := by
  have h := C3_cache_idempotent emptyStore "out" "feed" cexKey [cexA] [cexB]
  have hm : emptyStore (dataFileLoc "out" "feed" cexKey) = none := rfl
  exact ⟨(h.2.1 hm).1, (h.2.2.1 hm).1, (h.2.2.1 hm).2⟩

/-- Claim C4, counterexample.  The save step of generate_feed.py lines
190-191 opens the authoritative cache path itself with truncation, so an
observable intermediate state of the cache location is an existing file
whose contents are not the complete serialized record set. -/
theorem C4_counterexample :
    some "" ∈ traceAt cexLoc none (saveCacheOps cexLoc [cexA])
    ∧ some "" ≠ some (serializePapers [cexA]) := by
  constructor
  · simp [traceAt, saveCacheOps, applyFsOp, cexLoc]
  · decide

/-- Claim C4, amended.  The serialized result is written directly to the
cache path with no temporary file and no rename: the observable contents
of the cache location pass through an existing-but-truncated state (the
serialization is never empty, so that state is incomplete) before holding
the complete record set. -/
theorem C4_direct_write_trace :
    ∀ (loc : String) (ps : List Paper),
    traceAt loc none (saveCacheOps loc ps) = [none, some "", some (serializePapers ps)]
    ∧ serializePapers ps ≠ ""
    ∧ (saveCacheOps loc ps).all (fun op => ! isRenameOp op) = true := by
  intro loc ps
  refine ⟨?_, serializePapers_ne_empty ps, rfl⟩
  simp [traceAt, saveCacheOps, applyFsOp]

/-- Claim C4, witness for the amended theorem at the sample location and a
one-record list. -/
theorem C4_direct_write_trace_witness :
    traceAt cexLoc none (saveCacheOps cexLoc [cexA])
        = [none, some "", some (serializePapers [cexA])]
    ∧ serializePapers [cexA] ≠ "" := by
  have h := C4_direct_write_trace cexLoc [cexA]
  exact ⟨h.1, h.2.1⟩

/-- Claim C5: the Link Extractor returns the first scanned URL surviving
the ordered exclusion list, rewritten by the video rule, and `none` when
no URL survives; on a text with an academic-domain URL before a qualifying
custom-domain URL it returns the custom-domain URL, and on a text whose
only URL is from an excluded domain it returns `none`. -/
theorem C5_first_surviving_url :
    (∀ t : List Char, extract_project_url t
        = ((findUrls t).find? (fun u => ! urlExcluded u)).map rewriteVideo)
    ∧ extract_project_url cexTextTwo = some "https://demo.example.com/page".data
    ∧ extract_project_url cexTextDoi = none := by
  refine ⟨?_, by decide, by decide⟩
  intro t
  by_cases h : t.isEmpty
  · rw [List.isEmpty_iff] at h
    subst h
    rfl
  · simp [extract_project_url, h, selectUrl_eq_find]

/-- Claim C6: evaluation at the two recognized video-URL shapes.  For the
short-link shape the video id is preserved, but for the watch-page shape
the URL regex stops at the query string, `url.split("v=")` finds no
separator, and the embed URL is built from the whole truncated URL: the
video id `dQw4w9WgXcQ` does not occur in the returned URL at all. -/
theorem C6_watch_id_lost :
    extract_project_url cexTextWatch
        = some (embedStem ++ "https://www.youtube.com/watch".data)
    ∧ isSubL "dQw4w9WgXcQ".data (embedStem ++ "https://www.youtube.com/watch".data) = false
    ∧ extract_project_url cexTextShort = some (embedStem ++ "dQw4w9WgXcQ".data) := by
  refine ⟨by decide, by decide, by decide⟩

/-- Claim C7, counterexample.  A completed response with a non-2xx status
is not signalled as a failure: download_pdf performs no status check,
writes the error body to the target path and returns success. -/
theorem C7_counterexample :
    (download_pdf false (HttpOutcome.resp 404 "Not Found")).success = true
    ∧ (download_pdf false (HttpOutcome.resp 404 "Not Found")).written = some "Not Found" := by
  decide

/-- Claim C7, amended.  No exception escapes the download step; an
existing target file is success without a fetch; a network error or
timeout (any exception) is signalled as failure and the caller substitutes
the remote URL for the local document reference; a completed response of
any status is treated as success and its body is written. -/
theorem C7_download_fallback :
    (∀ out, download_pdf true out = ⟨true, false, none⟩)
    ∧ download_pdf false HttpOutcome.exn = ⟨false, true, none⟩
    ∧ (∀ s b, download_pdf false (HttpOutcome.resp s b) = ⟨true, true, some b⟩)
    ∧ (∀ (aff : Option String) (renderOk prevOk : Bool) (rel : String) (p : Paper),
        processPaper ⟨aff, false, HttpOutcome.exn, renderOk, prevOk⟩ rel p
          = Except.ok { p with
              authorsFull := some (aff.getD (String.intercalate ", " p.authors)),
              localPdf := some (pdfRemoteUrl p) }) := by
  refine ⟨fun out => rfl, rfl, fun s b => rfl, fun aff renderOk prevOk rel p => rfl⟩

/-- Claim C8: evaluation at the failing input.  When the document is
present but the preview render fails, generate_pdf_preview returns Python
`None` and the caller of generate_feed.py line 174 evaluates
`assets_dir / None`, raising an uncaught TypeError: the loop aborts and the
following record is never processed, instead of completing with a record
that simply lacks the preview field.  A record whose render succeeds is
processed normally. -/
theorem C8_preview_failure_aborts :
    processAll "./assets/d" [(envRenderFail, cexA), (envAllOk, cexB)]
        = Except.error "TypeError: unsupported operand type(s) for /: PosixPath and NoneType"
    ∧ processAll "./assets/d" [(envAllOk, cexB)]
        = Except.ok [{ cexB with
            authorsFull := some "",
            localPdf := some "./assets/d/B.pdf",
            pdfPreview := some "./assets/d/B_preview.png" }] := by
  constructor
  · rfl
  · rfl

/-- Claim C9, counterexample.  For an image of width 150 and height 600
the aspect value is 0.25, inside the accepted range, so the aspect-ratio
violation does not apply to it, contrary to the claim. -/
theorem C9_counterexample :
    figAspectViolation 150 600 = false ∧ figMinDimViolation 150 600 = true := by
  decide

/-- Claim C9, amended.  A 150 by 600 image is rejected for every encoded
byte size, by the minimum-dimension check (the aspect check does not
apply); a 400 by 300 image of exactly 15000 encoded bytes is accepted
(the byte threshold is inclusive at 15000: one byte fewer is rejected). -/
theorem C9_figure_boundary :
    (∀ byteLen, figureAccepted byteLen 150 600 = false)
    ∧ figMinDimViolation 150 600 = true
    ∧ figAspectViolation 150 600 = false
    ∧ figureAccepted 15000 400 300 = true
    ∧ figureAccepted 14999 400 300 = false := by
  refine ⟨?_, by decide, by decide, by decide, by decide⟩
  intro byteLen
  by_cases h : figByteViolation byteLen
  · simp [figureAccepted, h]
  · simp [figureAccepted, h, figMinDimViolation]

/-- Claim C10: on an empty candidate list filter_papers returns an empty
selection and an empty prompt before the ranking client is created, for
every response and limit. -/
theorem C10_empty_candidates :
    ∀ (interests : String) (response : Except Unit (List String)) (limit : Nat),
    filterPapersRun [] interests response limit = ⟨[], "", false⟩ := by
  intro interests response limit
  rfl

end ResearchPulse
